import Mathlib

set_option linter.unusedVariables false

/-!
Shallow embedding of the authentication module of `react-native-firebase`
(`src/lib/modules/auth/index.js`): the auth state synchronization bridge and
the phone verification demultiplexer, together with the listener-registration
contract and the provider-backed operations.

Conventions of the embedding:
* JavaScript `null`/`undefined` payloads become `Option`.
* The mutable module instance (`this._user`, `this._authResult`,
  `this._languageCode`) becomes the record `AuthState`, threaded explicitly.
* `SharedEventEmitter.emit` calls become elements of an output list of
  `Emit` records (topic name paired with payload), in emission order.
* Promise-returning provider calls take the provider's outcome as an
  explicit `Except Err` argument (the oracle for the external collaborator)
  and return the new state, the emissions, and the settled outcome.
-/

namespace RNFAuth

/-- Raw native user payload (`NativeUser` of `./types`); the core only ever
inspects its identity, so the embedding keeps the unique identifier. -/
structure NativeUser where
  uid : String
deriving Repr, DecidableEq

/-- Modelled from the spec: the `User` wrapper class (`./User`, not under
`src/`) adapts a raw native user payload into the session snapshot (§4.5
Result Adapters); the snapshot carries the raw payload it was built from. -/
structure User where
  _user : NativeUser
deriving Repr, DecidableEq

/-- Raw native user-credential payload (`NativeUserCredential` of `./types`):
a raw user plus opaque additional user info. -/
structure NativeUserCredential where
  user : NativeUser
  additionalUserInfo : String
deriving Repr, DecidableEq

/-- Result shape of the `AndRetrieveData` operations (`UserCredential` of
`./types`): adapted user plus the opaque additional user info. -/
structure UserCredential where
  additionalUserInfo : String
  user : User
deriving Repr, DecidableEq

/-- Credential triple produced by provider-specific builders and consumed
opaquely by `signInAndRetrieveDataWithCredential`. -/
structure AuthCredential where
  providerId : String
  token : String
  secret : String
deriving Repr, DecidableEq

/-- Errors surfaced to callers: provider rejections (opaque code/message)
and the `INTERNALS.STRINGS.ERROR_UNSUPPORTED_MODULE_METHOD` error thrown by
the known-unsupported methods, tagged with the module namespace and the
method name exactly as the source passes them. -/
inductive Err where
  | provider (code message : String)
  | unsupportedModuleMethod (moduleNamespace method : String)
deriving Repr, DecidableEq

/-- The mutable fields of the `Auth` module instance. -/
structure AuthState where
  _user : Option User
  _authResult : Bool
  _languageCode : String
deriving Repr, DecidableEq

/-- Constructor field initialisation (lines 59-63): no user, no authoritative
result yet, language code looked up from the native module (an input here). -/
def initialState (languageCode : String) : AuthState :=
  { _user := none, _authResult := false, _languageCode := languageCode }

/-- Payload of an emitted event: the three public topics carry the current
snapshot (or null); the private phone topics carry the opaque `event.state`. -/
inductive Payload where
  | user (u : Option User)
  | phoneState (state : String)
deriving Repr, DecidableEq

/-- One `SharedEventEmitter.emit` call: topic name and payload. -/
structure Emit where
  topic : String
  payload : Payload
deriving Repr, DecidableEq

/-- Modelled from the spec: `getAppEventName` (`utils/events`, not under
`src/`) derives the per-application topic name for an event name — topics of
the derived public channels are partitioned by application identity (§4.3,
§5 shared-resource policy). -/
def getAppEventName (appName eventName : String) : String :=
  appName ++ "-" ++ eventName

/-- The three native events the module subscribes to (`NATIVE_EVENTS`),
with the payload fields the handlers read. -/
inductive NativeEvent where
  | auth_state_changed (user : Option NativeUser)
  | auth_id_token_changed (user : Option NativeUser)
  | phone_auth_state_changed (requestKey type state : String)
deriving Repr, DecidableEq

/-- Lines 105-110: `_setUser` marks the authoritative-result flag, replaces
the snapshot (`user ? new User(this, user) : null`), emits `onUserChanged`
with the new snapshot, and returns it. -/
def _setUser (appName : String) (s : AuthState) (user : Option NativeUser) :
    AuthState × List Emit :=
  let u : Option User := user.map (fun nu => { _user := nu })
  ({ s with _user := u, _authResult := true },
   [{ topic := getAppEventName appName "onUserChanged", payload := Payload.user u }])

/-- Lines 112-121: `_setUserCredential` wraps the raw credential's user,
marks the flag, stores the snapshot, emits `onUserChanged` with it, and
returns the `UserCredential` result built from that same wrapper. -/
def _setUserCredential (appName : String) (s : AuthState)
    (userCredential : NativeUserCredential) :
    AuthState × List Emit × UserCredential :=
  let user : User := { _user := userCredential.user }
  ({ s with _user := some user, _authResult := true },
   [{ topic := getAppEventName appName "onUserChanged", payload := Payload.user (some user) }],
   { additionalUserInfo := userCredential.additionalUserInfo, user := user })

/-- Lines 65-99, the three constructor-installed handlers:
`auth_state_changed` runs `_setUser` then emits `onAuthStateChanged` with
the new `this._user`; `auth_id_token_changed` does the same but emits
`onIdTokenChanged`; `phone_auth_state_changed` only re-emits the opaque
state on the private topic built from the request key and event type. -/
def handleNativeEvent (appName : String) (s : AuthState) :
    NativeEvent → AuthState × List Emit
  | NativeEvent.auth_state_changed user =>
    let r := _setUser appName s user
    (r.1, r.2 ++ [{ topic := getAppEventName appName "onAuthStateChanged",
                    payload := Payload.user r.1._user }])
  | NativeEvent.auth_id_token_changed user =>
    let r := _setUser appName s user
    (r.1, r.2 ++ [{ topic := getAppEventName appName "onIdTokenChanged",
                    payload := Payload.user r.1._user }])
  | NativeEvent.phone_auth_state_changed requestKey type state =>
    (s, [{ topic := "phone:auth:" ++ requestKey ++ ":" ++ type,
           payload := Payload.phoneState state }])

/-- Deliver a whole sequence of native events, accumulating emissions. -/
def processEvents (appName : String) (s : AuthState) :
    List NativeEvent → AuthState × List Emit
  | [] => (s, [])
  | e :: rest =>
    let r := handleNativeEvent appName s e
    let r2 := processEvents appName r.1 rest
    (r2.1, r.2 ++ r2.2)

/-- Line 453-455: the `currentUser` getter returns `this._user`. -/
def currentUser (s : AuthState) : Option User :=
  s._user

/-!
Provider-backed operations. Each takes the provider call's outcome as an
oracle argument; on rejection the `.then` continuation never runs, so the
state is untouched, nothing is emitted, and the rejection propagates.
-/

/-- Lines 194-200: `signOut` then-chains `this._setUser()` (no argument,
hence the null snapshot) and resolves with nothing. -/
def signOut (appName : String) (s : AuthState) (native : Except Err Unit) :
    AuthState × List Emit × Except Err Unit :=
  match native with
  | Except.error e => (s, [], Except.error e)
  | Except.ok _ =>
    let r := _setUser appName s none
    (r.1, r.2, Except.ok ())

/-- Lines 207-214 (deprecated): resolves `this._setUser(user)`'s return
value, i.e. the new snapshot. -/
def signInAnonymously (appName : String) (s : AuthState)
    (native : Except Err (Option NativeUser)) :
    AuthState × List Emit × Except Err (Option User) :=
  match native with
  | Except.error e => (s, [], Except.error e)
  | Except.ok user =>
    let r := _setUser appName s user
    (r.1, r.2, Except.ok r.1._user)

/-- Lines 220-224: then-chains `this._setUserCredential(userCredential)`. -/
def signInAnonymouslyAndRetrieveData (appName : String) (s : AuthState)
    (native : Except Err NativeUserCredential) :
    AuthState × List Emit × Except Err UserCredential :=
  match native with
  | Except.error e => (s, [], Except.error e)
  | Except.ok uc =>
    let r := _setUserCredential appName s uc
    (r.1, r.2.1, Except.ok r.2.2)

/-- Lines 233-243 (deprecated): email/password create, `_setUser` path. -/
def createUserWithEmailAndPassword (appName : String) (s : AuthState)
    (email password : String) (native : Except Err (Option NativeUser)) :
    AuthState × List Emit × Except Err (Option User) :=
  match native with
  | Except.error e => (s, [], Except.error e)
  | Except.ok user =>
    let r := _setUser appName s user
    (r.1, r.2, Except.ok r.1._user)

/-- Lines 251-258: email/password create, `_setUserCredential` path. -/
def createUserAndRetrieveDataWithEmailAndPassword (appName : String)
    (s : AuthState) (email password : String)
    (native : Except Err NativeUserCredential) :
    AuthState × List Emit × Except Err UserCredential :=
  match native with
  | Except.error e => (s, [], Except.error e)
  | Except.ok uc =>
    let r := _setUserCredential appName s uc
    (r.1, r.2.1, Except.ok r.2.2)

/-- Lines 267-274 (deprecated): email/password sign-in, `_setUser` path. -/
def signInWithEmailAndPassword (appName : String) (s : AuthState)
    (email password : String) (native : Except Err (Option NativeUser)) :
    AuthState × List Emit × Except Err (Option User) :=
  match native with
  | Except.error e => (s, [], Except.error e)
  | Except.ok user =>
    let r := _setUser appName s user
    (r.1, r.2, Except.ok r.1._user)

/-- Lines 282-289: email/password sign-in, `_setUserCredential` path. -/
def signInAndRetrieveDataWithEmailAndPassword (appName : String)
    (s : AuthState) (email password : String)
    (native : Except Err NativeUserCredential) :
    AuthState × List Emit × Except Err UserCredential :=
  match native with
  | Except.error e => (s, [], Except.error e)
  | Except.ok uc =>
    let r := _setUserCredential appName s uc
    (r.1, r.2.1, Except.ok r.2.2)

/-- Lines 297-304 (deprecated): custom-token sign-in, `_setUser` path. -/
def signInWithCustomToken (appName : String) (s : AuthState)
    (customToken : String) (native : Except Err (Option NativeUser)) :
    AuthState × List Emit × Except Err (Option User) :=
  match native with
  | Except.error e => (s, [], Except.error e)
  | Except.ok user =>
    let r := _setUser appName s user
    (r.1, r.2, Except.ok r.1._user)

/-- Lines 311-317: custom-token sign-in, `_setUserCredential` path. -/
def signInAndRetrieveDataWithCustomToken (appName : String) (s : AuthState)
    (customToken : String) (native : Except Err NativeUserCredential) :
    AuthState × List Emit × Except Err UserCredential :=
  match native with
  | Except.error e => (s, [], Except.error e)
  | Except.ok uc =>
    let r := _setUserCredential appName s uc
    (r.1, r.2.1, Except.ok r.2.2)

/-- Lines 324-335 (deprecated): credential sign-in, `_setUser` path. -/
def signInWithCredential (appName : String) (s : AuthState)
    (credential : AuthCredential) (native : Except Err (Option NativeUser)) :
    AuthState × List Emit × Except Err (Option User) :=
  match native with
  | Except.error e => (s, [], Except.error e)
  | Except.ok user =>
    let r := _setUser appName s user
    (r.1, r.2, Except.ok r.1._user)

/-- Lines 341-351: credential sign-in, `_setUserCredential` path. -/
def signInAndRetrieveDataWithCredential (appName : String) (s : AuthState)
    (credential : AuthCredential) (native : Except Err NativeUserCredential) :
    AuthState × List Emit × Except Err UserCredential :=
  match native with
  | Except.error e => (s, [], Except.error e)
  | Except.ok uc =>
    let r := _setUserCredential appName s uc
    (r.1, r.2.1, Except.ok r.2.2)

/-!
Known unsupported methods (lines 465-509): each throws the
`ERROR_UNSUPPORTED_MODULE_METHOD` error synchronously, before anything else
can happen — modelled as returning the error with the state untouched and
no emissions.
-/

/-- Lines 465-472. -/
def getRedirectResult (s : AuthState) : AuthState × List Emit × Except Err Unit :=
  (s, [], Except.error (Err.unsupportedModuleMethod "auth" "getRedirectResult"))

/-- Lines 474-481. -/
def setPersistence (s : AuthState) : AuthState × List Emit × Except Err Unit :=
  (s, [], Except.error (Err.unsupportedModuleMethod "auth" "setPersistence"))

/-- Lines 483-490. -/
def signInWithPopup (s : AuthState) : AuthState × List Emit × Except Err Unit :=
  (s, [], Except.error (Err.unsupportedModuleMethod "auth" "signInWithPopup"))

/-- Lines 492-499. -/
def signInWithRedirect (s : AuthState) : AuthState × List Emit × Except Err Unit :=
  (s, [], Except.error (Err.unsupportedModuleMethod "auth" "signInWithRedirect"))

/-- Lines 502-509. -/
def useDeviceLanguage (s : AuthState) : AuthState × List Emit × Except Err Unit :=
  (s, [], Except.error (Err.unsupportedModuleMethod "auth" "useDeviceLanguage"))

/-!
The event bus. `SharedEventEmitter` (`utils/events`) is not under `src/`;
its registry is modelled from the spec below. Listener functions are
identified by a `Nat` (two registrations of the same function share the
identifier but are distinct registry entries).
-/

/-- One registry entry: a listener function subscribed to a topic. -/
structure Subscription where
  topic : String
  listener : Nat
deriving Repr, DecidableEq

/-- Modelled from the spec: the `SharedEventEmitter` registry (§4.1 Event
Bus) — listeners per topic in subscription order; no topic registration is
needed. -/
abbrev Registry : Type := List Subscription

/-- Modelled from the spec: `SharedEventEmitter.addListener` appends the
registration, preserving subscription order (§4.1). -/
def addListener (r : Registry) (topic : String) (l : Nat) : Registry :=
  List.append r [{ topic := topic, listener := l }]

/-- Modelled from the spec: `SharedEventEmitter.removeListener` drops the
registrations of that listener on that topic; removal is idempotent — when
nothing matches it has no effect and raises no error (§4.1). -/
def removeListener (r : Registry) (topic : String) (l : Nat) : Registry :=
  List.filter (fun sub => !(sub.topic == topic && sub.listener == l)) r

/-- Modelled from the spec: the listeners an `emit` on a topic invokes, in
subscription order (§4.1 ordered synchronous delivery). -/
def deliveries (r : Registry) (topic : String) : List Nat :=
  List.map Subscription.listener (List.filter (fun sub => sub.topic == topic) r)

/-- The three derived public topics of §4.3, as one index type so the claim
about the identical registration contract can quantify over them. -/
inductive DerivedTopic where
  | authState
  | idToken
  | userChanged
deriving Repr, DecidableEq

/-- Public event name of each derived topic, as passed to
`getAppEventName` by the three registration methods. -/
def derivedTopicName : DerivedTopic → String
  | DerivedTopic.authState => "onAuthStateChanged"
  | DerivedTopic.idToken => "onIdTokenChanged"
  | DerivedTopic.userChanged => "onUserChanged"

/-- Lines 131-146: `onAuthStateChanged` subscribes the listener to the
app's `onAuthStateChanged` topic and, when `this._authResult` holds,
invokes it once, synchronously, with `this._user || null`. The returned
pair is the new registry and the immediate invocations (listener paired
with the snapshot it receives). -/
def onAuthStateChanged (appName : String) (s : AuthState) (r : Registry)
    (listener : Nat) : Registry × List (Nat × Option User) :=
  (addListener r (getAppEventName appName "onAuthStateChanged") listener,
   if s._authResult then [(listener, s._user)] else [])

/-- Lines 139-145: the unsubscribe closure returned by
`onAuthStateChanged` removes the listener from that topic. -/
def onAuthStateChangedUnsubscribe (appName : String) (r : Registry)
    (listener : Nat) : Registry :=
  removeListener r (getAppEventName appName "onAuthStateChanged") listener

/-- Lines 152-167: `onIdTokenChanged`, same contract on its own topic. -/
def onIdTokenChanged (appName : String) (s : AuthState) (r : Registry)
    (listener : Nat) : Registry × List (Nat × Option User) :=
  (addListener r (getAppEventName appName "onIdTokenChanged") listener,
   if s._authResult then [(listener, s._user)] else [])

/-- Lines 160-166: the unsubscribe closure returned by `onIdTokenChanged`. -/
def onIdTokenChangedUnsubscribe (appName : String) (r : Registry)
    (listener : Nat) : Registry :=
  removeListener r (getAppEventName appName "onIdTokenChanged") listener

/-- Lines 173-188: `onUserChanged`, same contract on its own topic. -/
def onUserChanged (appName : String) (s : AuthState) (r : Registry)
    (listener : Nat) : Registry × List (Nat × Option User) :=
  (addListener r (getAppEventName appName "onUserChanged") listener,
   if s._authResult then [(listener, s._user)] else [])

/-- Lines 181-187: the unsubscribe closure returned by `onUserChanged`. -/
def onUserChangedUnsubscribe (appName : String) (r : Registry)
    (listener : Nat) : Registry :=
  removeListener r (getAppEventName appName "onUserChanged") listener

/-- Registration on a derived topic, dispatching to the three methods. -/
def registerOn (k : DerivedTopic) (appName : String) (s : AuthState)
    (r : Registry) (listener : Nat) : Registry × List (Nat × Option User) :=
  match k with
  | DerivedTopic.authState => onAuthStateChanged appName s r listener
  | DerivedTopic.idToken => onIdTokenChanged appName s r listener
  | DerivedTopic.userChanged => onUserChanged appName s r listener

/-!
Phone verification. The demultiplexer is the constructor handler above
(`handleNativeEvent` on `phone_auth_state_changed`); the per-request
listener object (`PhoneAuthListener`) is not under `src/` and is modelled
from the spec.
-/

/-- The four phase discriminators, from `statics.PhoneAuthState`
(lines 520-525). -/
def phoneAuthPhases : List String :=
  ["sent", "timeout", "verified", "error"]

/-- Terminal phases per §4.4: auto-verified and error. -/
def isTerminalPhase (t : String) : Bool :=
  t == "verified" || t == "error"

/-- The private topic the demultiplexer emits on for one event
(line 83). -/
def phoneEventTopic (requestKey type : String) : String :=
  "phone:auth:" ++ requestKey ++ ":" ++ type

/-- The private per-request topics a verification request's listeners
subscribe to: one per phase, in the demultiplexer's format. -/
def phoneAuthTopics (requestKey : String) : List String :=
  List.map (fun p => phoneEventTopic requestKey p) phoneAuthPhases

/-- Modelled from the spec: the per-request listener state of
`PhoneAuthListener` (`./phone/PhoneAuthListener`, not under `src/`) —
whether its per-phase subscriptions are still installed, and the phase
notifications delivered so far, in order (phase paired with the opaque
state payload). Per §3/§4.4 the subscriptions are torn down once a
terminal phase fires. -/
structure PhoneListener where
  active : Bool
  delivered : List (String × String)
deriving Repr, DecidableEq

/-- Modelled from the spec: a fresh request's listener — subscriptions
installed, nothing delivered yet. -/
def phoneListenerInit : PhoneListener :=
  { active := true, delivered := [] }

/-- The phase topic of this request, if any, that the demultiplexed
emission for a native event would land on: the event is re-published on
`phoneEventTopic k t` (line 83), and it reaches this request's listeners
exactly when that string equals one of the request's subscribed topics. -/
def phoneMatch (requestKey : String) : NativeEvent → Option (String × String)
  | NativeEvent.phone_auth_state_changed k t state =>
    Option.map (fun p => (p, state))
      (List.find? (fun p => phoneEventTopic k t == phoneEventTopic requestKey p)
        phoneAuthPhases)
  | _ => none

/-- Modelled from the spec: one native event's effect on a request's
listener — while the subscriptions are installed, a matching demultiplexed
emission is delivered and a terminal phase tears the subscriptions down
(§3 lifecycle, §4.4); after teardown nothing more is delivered. -/
def phoneListenerStep (requestKey : String) (st : PhoneListener)
    (e : NativeEvent) : PhoneListener :=
  match phoneMatch requestKey e with
  | some m =>
    if st.active then
      { active := !(isTerminalPhase m.1), delivered := st.delivered ++ [m] }
    else st
  | none => st

/-- Run a request's listener over a whole native event sequence. -/
def phoneListenerRun (requestKey : String) (evs : List NativeEvent) :
    PhoneListener :=
  List.foldl (phoneListenerStep requestKey) phoneListenerInit evs

/-!
Every state transition of the module, for the monotonicity invariant:
native notifications, the provider-backed operations (with the provider
outcome as oracle data), the unsupported methods, and the language-code
setter (lines 444-447).
-/

/-- One module action together with its oracle data. -/
inductive Action where
  | native (e : NativeEvent)
  | signOut (native : Except Err Unit)
  | signInAnonymously (native : Except Err (Option NativeUser))
  | signInAnonymouslyAndRetrieveData (native : Except Err NativeUserCredential)
  | createUserWithEmailAndPassword (email password : String)
      (native : Except Err (Option NativeUser))
  | createUserAndRetrieveDataWithEmailAndPassword (email password : String)
      (native : Except Err NativeUserCredential)
  | signInWithEmailAndPassword (email password : String)
      (native : Except Err (Option NativeUser))
  | signInAndRetrieveDataWithEmailAndPassword (email password : String)
      (native : Except Err NativeUserCredential)
  | signInWithCustomToken (customToken : String)
      (native : Except Err (Option NativeUser))
  | signInAndRetrieveDataWithCustomToken (customToken : String)
      (native : Except Err NativeUserCredential)
  | signInWithCredential (credential : AuthCredential)
      (native : Except Err (Option NativeUser))
  | signInAndRetrieveDataWithCredential (credential : AuthCredential)
      (native : Except Err NativeUserCredential)
  | getRedirectResult
  | setPersistence
  | signInWithPopup
  | signInWithRedirect
  | useDeviceLanguage
  | setLanguageCode (code : String)

/-- The state after one action (projecting away emissions and results). -/
def stepState (appName : String) (s : AuthState) : Action → AuthState
  | Action.native e => (handleNativeEvent appName s e).1
  | Action.signOut n => (signOut appName s n).1
  | Action.signInAnonymously n => (signInAnonymously appName s n).1
  | Action.signInAnonymouslyAndRetrieveData n =>
    (signInAnonymouslyAndRetrieveData appName s n).1
  | Action.createUserWithEmailAndPassword em pw n =>
    (createUserWithEmailAndPassword appName s em pw n).1
  | Action.createUserAndRetrieveDataWithEmailAndPassword em pw n =>
    (createUserAndRetrieveDataWithEmailAndPassword appName s em pw n).1
  | Action.signInWithEmailAndPassword em pw n =>
    (signInWithEmailAndPassword appName s em pw n).1
  | Action.signInAndRetrieveDataWithEmailAndPassword em pw n =>
    (signInAndRetrieveDataWithEmailAndPassword appName s em pw n).1
  | Action.signInWithCustomToken tok n =>
    (signInWithCustomToken appName s tok n).1
  | Action.signInAndRetrieveDataWithCustomToken tok n =>
    (signInAndRetrieveDataWithCustomToken appName s tok n).1
  | Action.signInWithCredential c n => (signInWithCredential appName s c n).1
  | Action.signInAndRetrieveDataWithCredential c n =>
    (signInAndRetrieveDataWithCredential appName s c n).1
  | Action.getRedirectResult => (getRedirectResult s).1
  | Action.setPersistence => (setPersistence s).1
  | Action.signInWithPopup => (signInWithPopup s).1
  | Action.signInWithRedirect => (signInWithRedirect s).1
  | Action.useDeviceLanguage => (useDeviceLanguage s).1
  | Action.setLanguageCode code => { s with _languageCode := code }

/-- The result adapter for raw users (§4.5): the form
`user ? new User(this, user) : null` used by `_setUser`. -/
def adaptUser (user : Option NativeUser) : Option User :=
  Option.map (fun nu => { _user := nu }) user

/-- The raw-user-or-absent payload of a native notification, for the two
state channels; the phone channel carries no such payload. -/
def eventUserPayload : NativeEvent → Option (Option NativeUser)
  | NativeEvent.auth_state_changed user => some user
  | NativeEvent.auth_id_token_changed user => some user
  | NativeEvent.phone_auth_state_changed _ _ _ => none

/-- The unsubscribe closure of a registration on a derived topic,
dispatching to the three methods' closures. -/
def unsubscribeOn (k : DerivedTopic) (appName : String) (r : Registry)
    (l : Nat) : Registry :=
  match k with
  | DerivedTopic.authState => onAuthStateChangedUnsubscribe appName r l
  | DerivedTopic.idToken => onIdTokenChangedUnsubscribe appName r l
  | DerivedTopic.userChanged => onUserChangedUnsubscribe appName r l

/-- Terminal-phase counter of a delivered notification list. -/
def countTerminal (l : List (String × String)) : Nat :=
  List.countP (fun m => isTerminalPhase m.1) l

/-- Counter of one given phase in a delivered notification list. -/
def countPhase (p : String) (l : List (String × String)) : Nat :=
  List.countP (fun m => m.1 == p) l

/-!
Helper lemmas: topic strings built by concatenation, and the registry.
-/

/-- Splitting a character-list append at a separator character that occurs
in neither tail is unambiguous. -/
theorem append_sep_split (sep : Char) :
    ∀ (a b u v : List Char), sep ∉ u → sep ∉ v →
      a ++ sep :: u = b ++ sep :: v → a = b ∧ u = v := by
  intro a
  induction a with
  | nil =>
    intro b u v hu hv h
    cases b with
    | nil =>
      simp only [List.nil_append] at h
      injection h with _ h2
      exact ⟨rfl, h2⟩
    | cons c bs =>
      simp only [List.nil_append, List.cons_append] at h
      injection h with _ h2
      exact absurd (by rw [h2]; exact List.mem_append_right bs (List.mem_cons_self sep v)) hu
  | cons c as ih =>
    intro b u v hu hv h
    cases b with
    | nil =>
      simp only [List.nil_append, List.cons_append] at h
      injection h with _ h2
      exact absurd (by rw [← h2]; exact List.mem_append_right as (List.mem_cons_self sep u)) hv
    | cons c2 bs =>
      simp only [List.cons_append] at h
      injection h with h1 h2
      obtain ⟨hab, huv⟩ := ih bs u v hu hv h2
      exact ⟨by rw [h1, hab], huv⟩

/-- In an equality of appends, the shorter right part is a suffix of the
longer right part. -/
theorem append_suffix_eq (a b u v : List Char) (h : a ++ u = b ++ v)
    (hl : u.length ≤ v.length) :
    u = List.drop (v.length - u.length) v := by
  have h2 : a ++ u
      = (b ++ List.take (v.length - u.length) v) ++ List.drop (v.length - u.length) v := by
    rw [List.append_assoc, List.take_append_drop]
    exact h
  have hlen : u.length = (List.drop (v.length - u.length) v).length := by
    rw [List.length_drop]
    omega
  exact (List.append_inj' h2 hlen).2

/-- Two strings built by appending fixed tails differ whenever the shorter
tail is not a suffix of the longer one, whatever stands in front. -/
theorem string_append_ne_of_suffix (t v : String)
    (hl : t.data.length ≤ v.data.length)
    (hne : t.data ≠ List.drop (v.data.length - t.data.length) v.data) :
    ∀ x y : String, x ++ t ≠ y ++ v := by
  intro x y heq
  have hd : x.data ++ t.data = y.data ++ v.data := by
    simpa using congrArg String.data heq
  exact hne (append_suffix_eq _ _ _ _ hd hl)

/-- The demultiplexer's topic construction is injective as long as the
phase discriminators contain no colon: equal topics force equal request
keys and equal phases. -/
theorem phoneEventTopic_inj (k1 k2 t1 t2 : String)
    (h1 : (':' : Char) ∉ t1.data) (h2 : (':' : Char) ∉ t2.data)
    (heq : phoneEventTopic k1 t1 = phoneEventTopic k2 t2) :
    k1 = k2 ∧ t1 = t2 := by
  have hd := congrArg String.data heq
  simp only [phoneEventTopic, String.data_append] at hd
  simp only [List.append_assoc, List.singleton_append] at hd
  have hd2 := List.append_cancel_left hd
  obtain ⟨hk, ht⟩ := append_sep_split ':' _ _ _ _ h1 h2 hd2
  exact ⟨String.ext hk, String.ext ht⟩

/-- Removing a listener from a topic twice is the same as removing it
once. -/
theorem removeListener_idem (r : Registry) (t : String) (l : Nat) :
    removeListener (removeListener r t l) t l = removeListener r t l := by
  unfold removeListener
  rw [List.filter_filter]
  apply List.filter_congr
  intro a _
  exact Bool.and_self _

/-- Removing a listener that is not subscribed on the topic leaves the
registry untouched. -/
theorem removeListener_noop (r : Registry) (t : String) (l : Nat)
    (h : ∀ sub ∈ r, sub.topic ≠ t ∨ sub.listener ≠ l) :
    removeListener r t l = r := by
  unfold removeListener
  apply List.filter_eq_self.mpr
  intro a ha
  rcases h a ha with h1 | h1 <;> simp [h1]

/-- Removal keeps the multiplicity of every registration that is not the
removed (topic, listener) pair. -/
theorem removeListener_count (r : Registry) (t : String) (l : Nat)
    (sub : Subscription) (h : sub.topic ≠ t ∨ sub.listener ≠ l) :
    List.count sub (removeListener r t l) = List.count sub r := by
  unfold removeListener
  apply List.count_filter
  rcases h with h1 | h1 <;> simp [h1]

/-- One step preserves the phone listener's terminal-phase invariant: while
the subscriptions are installed no terminal phase has been delivered, and
at every point all delivered notifications but possibly the final one are
non-terminal. -/
theorem phoneListenerStep_invariant (key : String) (st : PhoneListener)
    (e : NativeEvent)
    (h1 : st.active = true → countTerminal st.delivered = 0)
    (h2 : countTerminal (List.dropLast st.delivered) = 0) :
    ((phoneListenerStep key st e).active = true →
      countTerminal (phoneListenerStep key st e).delivered = 0) ∧
    countTerminal (List.dropLast (phoneListenerStep key st e).delivered) = 0 := by
  unfold phoneListenerStep
  cases hm : phoneMatch key e with
  | none => exact ⟨h1, h2⟩
  | some m =>
    cases hact : st.active with
    | false =>
      simp only [hact, Bool.false_eq_true, if_false]
      exact ⟨False.elim, h2⟩
    | true =>
      simp only [hact, if_true]
      constructor
      · intro hterm
        have hm0 : isTerminalPhase m.1 = false := by
          simpa using hterm
        unfold countTerminal at h1 ⊢
        rw [List.countP_append, h1 hact]
        simp [List.countP_cons, hm0]
      · unfold countTerminal at h1 ⊢
        simp only [List.dropLast_concat]
        exact h1 hact

/-- Folding the listener over any event sequence keeps the terminal-phase
invariant. -/
theorem phoneListener_foldl_invariant (key : String) :
    ∀ (evs : List NativeEvent) (st : PhoneListener),
      (st.active = true → countTerminal st.delivered = 0) →
      countTerminal (List.dropLast st.delivered) = 0 →
      (((List.foldl (phoneListenerStep key) st evs).active = true →
          countTerminal (List.foldl (phoneListenerStep key) st evs).delivered = 0) ∧
        countTerminal
          (List.dropLast (List.foldl (phoneListenerStep key) st evs).delivered) = 0) := by
  intro evs
  induction evs with
  | nil =>
    intro st h1 h2
    exact ⟨h1, h2⟩
  | cons e rest ih =>
    intro st h1 h2
    simp only [List.foldl_cons]
    obtain ⟨h1s, h2s⟩ := phoneListenerStep_invariant key st e h1 h2
    exact ih (phoneListenerStep key st e) h1s h2s

/-- What a request's listener gets delivered over an event sequence is a
subsequence of the demultiplexed emissions that land on the request's
topics. -/
theorem phoneListener_foldl_delivered (key : String) :
    ∀ (evs : List NativeEvent) (st : PhoneListener),
      ∃ d, (List.foldl (phoneListenerStep key) st evs).delivered = st.delivered ++ d ∧
        d.Sublist (List.filterMap (phoneMatch key) evs) := by
  intro evs
  induction evs with
  | nil =>
    intro st
    exact ⟨[], by simp, by simp⟩
  | cons e rest ih =>
    intro st
    simp only [List.foldl_cons, List.filterMap_cons]
    cases hm : phoneMatch key e with
    | none =>
      have hstep : phoneListenerStep key st e = st := by
        unfold phoneListenerStep
        rw [hm]
      rw [hstep]
      exact ih st
    | some m =>
      cases hact : st.active with
      | false =>
        have hstep : phoneListenerStep key st e = st := by
          unfold phoneListenerStep
          rw [hm]
          simp [hact]
        rw [hstep]
        obtain ⟨d, hd, hs⟩ := ih st
        exact ⟨d, hd, List.Sublist.cons m hs⟩
      | true =>
        have hstep : phoneListenerStep key st e =
            { active := !(isTerminalPhase m.1), delivered := st.delivered ++ [m] } := by
          unfold phoneListenerStep
          rw [hm]
          simp [hact]
        rw [hstep]
        obtain ⟨d, hd, hs⟩ :=
          ih { active := !(isTerminalPhase m.1), delivered := st.delivered ++ [m] }
        refine ⟨m :: d, ?_, List.Sublist.cons₂ m hs⟩
        rw [hd]
        simp

/-- A list whose dropLast has no terminal entry has at most one terminal
entry. -/
theorem countTerminal_le_one_of_dropLast (l : List (String × String))
    (h : countTerminal (List.dropLast l) = 0) :
    countTerminal l ≤ 1 := by
  rcases eq_or_ne l [] with rfl | hne
  · simp [countTerminal]
  · have hsplit := List.dropLast_concat_getLast hne
    calc countTerminal l
        = countTerminal (List.dropLast l ++ [l.getLast hne]) := by rw [hsplit]
      _ = countTerminal (List.dropLast l) + countTerminal [l.getLast hne] := by
          unfold countTerminal
          rw [List.countP_append]
      _ ≤ 0 + 1 := by
          rw [h]
          have : countTerminal [l.getLast hne] ≤ 1 := by
            unfold countTerminal
            rw [List.countP_cons]
            simp only [List.countP_nil]
            split <;> omega
          omega
      _ = 1 := by omega

/-- Processing a concatenated event sequence threads the state through. -/
theorem processEvents_append_state (appName : String) :
    ∀ (xs ys : List NativeEvent) (s : AuthState),
      (processEvents appName s (xs ++ ys)).1
        = (processEvents appName (processEvents appName s xs).1 ys).1 := by
  intro xs
  induction xs with
  | nil =>
    intro ys s
    rfl
  | cons e rest ih =>
    intro ys s
    simp only [List.cons_append, processEvents]
    exact ih ys (handleNativeEvent appName s e).1

/-- C1. For every sequence of external `auth_state_changed` and
`auth_id_token_changed` notifications delivered to the Auth module (here:
any native event sequence ending in one of the two, however the channels
interleave), the current-user snapshot after processing equals the adapted
form — `User` wrapper, or absent when the payload's `user` field is absent
— of the raw payload of the most recently delivered notification. -/
theorem c1_current_user_tracks_last_payload (appName : String) (s : AuthState)
    (evs : List NativeEvent) (e : NativeEvent) (u : Option NativeUser)
    (h : eventUserPayload e = some u) :
    currentUser (processEvents appName s (evs ++ [e])).1 = adaptUser u := by
  rw [processEvents_append_state]
  cases e with
  | auth_state_changed user =>
    injection h with h
    subst h
    rfl
  | auth_id_token_changed user =>
    injection h with h
    subst h
    rfl
  | phone_auth_state_changed k t st =>
    exact absurd h (by simp [eventUserPayload])

/-- C1 witness: two interleaved notifications; the snapshot follows the
last one. -/
theorem c1_current_user_tracks_last_payload_witness :
    eventUserPayload (NativeEvent.auth_id_token_changed (some { uid := "u2" }))
        = some (some { uid := "u2" }) ∧
      currentUser
        (processEvents "app" (initialState "en")
          ([NativeEvent.auth_state_changed (some { uid := "u1" })] ++
            [NativeEvent.auth_id_token_changed (some { uid := "u2" })])).1
        = adaptUser (some { uid := "u2" }) :=
  ⟨rfl,
   c1_current_user_tracks_last_payload "app" (initialState "en")
     [NativeEvent.auth_state_changed (some { uid := "u1" })]
     (NativeEvent.auth_id_token_changed (some { uid := "u2" }))
     (some { uid := "u2" }) rfl⟩

/-- C2. For every listener registered via `onAuthStateChanged`,
`onIdTokenChanged` or `onUserChanged`: when the authoritative-result flag
is already true the listener is invoked exactly once, synchronously during
registration, with the current snapshot (or null); when no notification
has ever been processed it receives zero invocations at registration, and
the listener is subscribed for later notifications in either case. -/
theorem c2_registration_immediate_invocation (k : DerivedTopic)
    (appName : String) (s : AuthState) (r : Registry) (listener : Nat) :
    (registerOn k appName s r listener).2
        = (if s._authResult = true then [(listener, currentUser s)] else []) ∧
      (registerOn k appName s r listener).1
        = addListener r (getAppEventName appName (derivedTopicName k)) listener := by
  cases k <;> exact ⟨rfl, rfl⟩

/-- C3 counterexample: the demultiplexer re-publishes a phase event tagged
with request key `rk1` and phase `sent` on the topic
`phone:auth:rk1:sent`, which is not the topic
`"phone-auth:" + requestKey + ":" + phase` stated by the claim. -/
theorem c3_counterexample_topic_format :
    (handleNativeEvent "app" (initialState "en")
        (NativeEvent.phone_auth_state_changed "rk1" "sent" "s0")).2
      = [{ topic := "phone:auth:rk1:sent", payload := Payload.phoneState "s0" }] ∧
    "phone:auth:rk1:sent" ≠ "phone-auth:" ++ "rk1" ++ ":" ++ "sent" := by
  constructor
  · decide
  · decide

/-- C3 (amended). For every external phone-verification phase event tagged
with request key `R1`, the coordinator re-publishes it only onto the
private per-request topic derived from `R1` as
`"phone:auth:" + requestKey + ":" + phase` (the demultiplexer's actual
format), so for distinct request keys `R1` and `R2` a listener subscribed
only to `R2`'s private topics is never invoked by an event tagged `R1`. -/
theorem c3_demux_private_topic (appName k1 k2 t state : String)
    (s : AuthState) (r : Registry) (l : Nat)
    (ht : t ∈ phoneAuthPhases) (hk : k1 ≠ k2)
    (hsub : ∀ sub ∈ r, sub.listener = l → sub.topic ∈ phoneAuthTopics k2) :
    (handleNativeEvent appName s (NativeEvent.phone_auth_state_changed k1 t state)).2
        = [{ topic := phoneEventTopic k1 t, payload := Payload.phoneState state }] ∧
      ∀ em ∈ (handleNativeEvent appName s
          (NativeEvent.phone_auth_state_changed k1 t state)).2,
        l ∉ deliveries r em.topic := by
  refine ⟨rfl, ?_⟩
  intro em hem hdel
  have hem2 : em = { topic := phoneEventTopic k1 t, payload := Payload.phoneState state } := by
    simpa [handleNativeEvent, phoneEventTopic] using hem
  subst hem2
  unfold deliveries at hdel
  rw [List.mem_map] at hdel
  obtain ⟨sub, hsubmem, hlid⟩ := hdel
  rw [List.mem_filter] at hsubmem
  obtain ⟨hmem, htop⟩ := hsubmem
  have htopic : sub.topic = phoneEventTopic k1 t := by
    simpa using htop
  have hint := hsub sub hmem hlid
  rw [htopic] at hint
  unfold phoneAuthTopics at hint
  rw [List.mem_map] at hint
  obtain ⟨p, hp, hpe⟩ := hint
  have hcol_t : (':' : Char) ∉ t.data := by
    fin_cases ht <;> decide
  have hcol_p : (':' : Char) ∉ p.data := by
    fin_cases hp <;> decide
  obtain ⟨hk12, -⟩ := phoneEventTopic_inj k2 k1 p t hcol_p hcol_t hpe
  exact hk hk12.symm

/-- C3 witness: an event tagged `rk1` is re-published only onto
`rk1`'s private topic and never reaches a listener subscribed only to
`rk2`'s private topics. -/
theorem c3_demux_private_topic_witness :
    ("sent" ∈ phoneAuthPhases ∧ "rk1" ≠ "rk2" ∧
      (∀ sub ∈ ([{ topic := phoneEventTopic "rk2" "sent", listener := 7 }] : Registry),
        sub.listener = 7 → sub.topic ∈ phoneAuthTopics "rk2")) ∧
    ((handleNativeEvent "app" (initialState "en")
        (NativeEvent.phone_auth_state_changed "rk1" "sent" "s0")).2
        = [{ topic := phoneEventTopic "rk1" "sent",
             payload := Payload.phoneState "s0" }] ∧
      ∀ em ∈ (handleNativeEvent "app" (initialState "en")
          (NativeEvent.phone_auth_state_changed "rk1" "sent" "s0")).2,
        7 ∉ deliveries [{ topic := phoneEventTopic "rk2" "sent", listener := 7 }] em.topic) :=
  ⟨⟨by decide, by decide, by decide⟩,
   c3_demux_private_topic "app" "rk1" "rk2" "sent" "s0" (initialState "en")
     [{ topic := phoneEventTopic "rk2" "sent", listener := 7 }] 7
     (by decide) (by decide) (by decide)⟩

/-- C4. For every verification request key, across the lifetime of that
request at most one terminal phase notification (auto-verified or error)
is ever delivered to that key's listeners and any terminal notification is
the last one delivered; under the provider-side phase invariant (code-sent
and timeout arrive at most once on the request's topics), code-sent and
timeout are also delivered at most once each. -/
theorem c4_terminal_phase_unique_and_last (key : String)
    (evs : List NativeEvent)
    (hsent : countPhase "sent" (List.filterMap (phoneMatch key) evs) ≤ 1)
    (htimeout : countPhase "timeout" (List.filterMap (phoneMatch key) evs) ≤ 1) :
    countTerminal (phoneListenerRun key evs).delivered ≤ 1 ∧
    countTerminal (List.dropLast (phoneListenerRun key evs).delivered) = 0 ∧
    countPhase "sent" (phoneListenerRun key evs).delivered ≤ 1 ∧
    countPhase "timeout" (phoneListenerRun key evs).delivered ≤ 1 := by
  have hinv := phoneListener_foldl_invariant key evs phoneListenerInit
    (fun _ => rfl) rfl
  obtain ⟨d, hd, hs⟩ := phoneListener_foldl_delivered key evs phoneListenerInit
  have hdel : (phoneListenerRun key evs).delivered = d := by
    unfold phoneListenerRun
    rw [hd]
    rfl
  refine ⟨countTerminal_le_one_of_dropLast _ hinv.2, hinv.2, ?_, ?_⟩
  · rw [hdel]
    unfold countPhase at hsent ⊢
    exact le_trans (hs.countP_le _) hsent
  · rw [hdel]
    unfold countPhase at htimeout ⊢
    exact le_trans (hs.countP_le _) htimeout

/-- C4 witness: code-sent, then auto-verified, then a late error for the
same key — the listener gets code-sent and exactly one terminal phase, in
that order, and nothing after the terminal one. -/
theorem c4_terminal_phase_unique_and_last_witness :
    (countPhase "sent"
        (List.filterMap (phoneMatch "rk1")
          [NativeEvent.phone_auth_state_changed "rk1" "sent" "a",
           NativeEvent.phone_auth_state_changed "rk1" "verified" "b",
           NativeEvent.phone_auth_state_changed "rk1" "error" "c"]) ≤ 1 ∧
      countPhase "timeout"
        (List.filterMap (phoneMatch "rk1")
          [NativeEvent.phone_auth_state_changed "rk1" "sent" "a",
           NativeEvent.phone_auth_state_changed "rk1" "verified" "b",
           NativeEvent.phone_auth_state_changed "rk1" "error" "c"]) ≤ 1) ∧
    (countTerminal (phoneListenerRun "rk1"
        [NativeEvent.phone_auth_state_changed "rk1" "sent" "a",
         NativeEvent.phone_auth_state_changed "rk1" "verified" "b",
         NativeEvent.phone_auth_state_changed "rk1" "error" "c"]).delivered ≤ 1 ∧
      countTerminal (List.dropLast (phoneListenerRun "rk1"
        [NativeEvent.phone_auth_state_changed "rk1" "sent" "a",
         NativeEvent.phone_auth_state_changed "rk1" "verified" "b",
         NativeEvent.phone_auth_state_changed "rk1" "error" "c"]).delivered) = 0 ∧
      countPhase "sent" (phoneListenerRun "rk1"
        [NativeEvent.phone_auth_state_changed "rk1" "sent" "a",
         NativeEvent.phone_auth_state_changed "rk1" "verified" "b",
         NativeEvent.phone_auth_state_changed "rk1" "error" "c"]).delivered ≤ 1 ∧
      countPhase "timeout" (phoneListenerRun "rk1"
        [NativeEvent.phone_auth_state_changed "rk1" "sent" "a",
         NativeEvent.phone_auth_state_changed "rk1" "verified" "b",
         NativeEvent.phone_auth_state_changed "rk1" "error" "c"]).delivered ≤ 1) :=
  ⟨⟨by decide, by decide⟩,
   c4_terminal_phase_unique_and_last "rk1"
     [NativeEvent.phone_auth_state_changed "rk1" "sent" "a",
      NativeEvent.phone_auth_state_changed "rk1" "verified" "b",
      NativeEvent.phone_auth_state_changed "rk1" "error" "c"]
     (by decide) (by decide)⟩

/-- C5. For every provider-backed operation (signOut and the whole
sign-in/sign-up family), when the underlying provider call rejects, the
module state — current-user snapshot, authoritative-result flag, language
code — is left unchanged, no notification is published on any topic, and
the rejection propagates to the caller unchanged. -/
theorem c5_failed_provider_call_frame (appName email password customToken : String)
    (credential : AuthCredential) (s : AuthState) (e : Err) :
    signOut appName s (Except.error e) = (s, [], Except.error e) ∧
    signInAnonymously appName s (Except.error e) = (s, [], Except.error e) ∧
    signInAnonymouslyAndRetrieveData appName s (Except.error e)
      = (s, [], Except.error e) ∧
    createUserWithEmailAndPassword appName s email password (Except.error e)
      = (s, [], Except.error e) ∧
    createUserAndRetrieveDataWithEmailAndPassword appName s email password
        (Except.error e)
      = (s, [], Except.error e) ∧
    signInWithEmailAndPassword appName s email password (Except.error e)
      = (s, [], Except.error e) ∧
    signInAndRetrieveDataWithEmailAndPassword appName s email password
        (Except.error e)
      = (s, [], Except.error e) ∧
    signInWithCustomToken appName s customToken (Except.error e)
      = (s, [], Except.error e) ∧
    signInAndRetrieveDataWithCustomToken appName s customToken (Except.error e)
      = (s, [], Except.error e) ∧
    signInWithCredential appName s credential (Except.error e)
      = (s, [], Except.error e) ∧
    signInAndRetrieveDataWithCredential appName s credential (Except.error e)
      = (s, [], Except.error e) :=
  ⟨rfl, rfl, rfl, rfl, rfl, rfl, rfl, rfl, rfl, rfl, rfl⟩

/-- C6. Every call to each of the unsupported operations
(`getRedirectResult`, `setPersistence`, `signInWithPopup`,
`signInWithRedirect`, `useDeviceLanguage`) deterministically throws the
unsupported-module-method error named after the method, with the state —
snapshot, authoritative-result flag, language code — unchanged and no
notification published. -/
theorem c6_unsupported_methods (s : AuthState) :
    getRedirectResult s
      = (s, [], Except.error (Err.unsupportedModuleMethod "auth" "getRedirectResult")) ∧
    setPersistence s
      = (s, [], Except.error (Err.unsupportedModuleMethod "auth" "setPersistence")) ∧
    signInWithPopup s
      = (s, [], Except.error (Err.unsupportedModuleMethod "auth" "signInWithPopup")) ∧
    signInWithRedirect s
      = (s, [], Except.error (Err.unsupportedModuleMethod "auth" "signInWithRedirect")) ∧
    useDeviceLanguage s
      = (s, [], Except.error (Err.unsupportedModuleMethod "auth" "useDeviceLanguage")) :=
  ⟨rfl, rfl, rfl, rfl, rfl⟩

/-- C7. The authoritative-result flag is monotone: it starts false at
construction, and whenever it is true no action of the module — native
notification, provider-backed operation (whatever the provider outcome),
unsupported method, or language-code update — ever resets it. -/
theorem c7_auth_result_monotone (appName languageCode : String)
    (s : AuthState) (a : Action) (h : s._authResult = true) :
    (initialState languageCode)._authResult = false ∧
    (stepState appName s a)._authResult = true := by
  refine ⟨rfl, ?_⟩
  cases a <;> try exact h
  all_goals rename_i n
  all_goals cases n <;> first | rfl | exact h

/-- C7 witness: after a successful sign-out from a signed-in state with
the flag set, the flag stays set. -/
theorem c7_auth_result_monotone_witness :
    (initialState "en")._authResult = false ∧
    (stepState "app"
      { _user := some { _user := { uid := "u1" } }, _authResult := true,
        _languageCode := "en" }
      (Action.signOut (Except.ok ())))._authResult = true :=
  c7_auth_result_monotone "app" "en"
    { _user := some { _user := { uid := "u1" } }, _authResult := true,
      _languageCode := "en" }
    (Action.signOut (Except.ok ())) rfl

/-- C8. When `createUserAndRetrieveDataWithEmailAndPassword` resolves with
a raw user credential whose user has uid `u1`, the returned result's user
has uid `u1`, the current-user snapshot is that same returned snapshot
(hence its uid is `u1` too), and exactly one `onUserChanged` notification
fires, carrying that same snapshot. -/
theorem c8_create_user_scenario (appName email password : String)
    (s : AuthState) (uc : NativeUserCredential) (h : uc.user.uid = "u1") :
    ∃ result : UserCredential,
      (createUserAndRetrieveDataWithEmailAndPassword appName s email password
          (Except.ok uc)).2.2 = Except.ok result ∧
      result.user._user.uid = "u1" ∧
      currentUser (createUserAndRetrieveDataWithEmailAndPassword appName s email
          password (Except.ok uc)).1 = some result.user ∧
      (createUserAndRetrieveDataWithEmailAndPassword appName s email password
          (Except.ok uc)).2.1
        = [{ topic := getAppEventName appName "onUserChanged",
             payload := Payload.user (some result.user) }] :=
  ⟨{ additionalUserInfo := uc.additionalUserInfo, user := { _user := uc.user } },
   rfl, h, rfl, rfl⟩

/-- C8 witness: the scenario at the concrete credential with uid `u1`. -/
theorem c8_create_user_scenario_witness :
    ({ user := { uid := "u1" }, additionalUserInfo := "i" } : NativeUserCredential).user.uid
        = "u1" ∧
    ∃ result : UserCredential,
      (createUserAndRetrieveDataWithEmailAndPassword "app" (initialState "en")
          "a@b.com" "pw"
          (Except.ok { user := { uid := "u1" }, additionalUserInfo := "i" })).2.2
        = Except.ok result ∧
      result.user._user.uid = "u1" ∧
      currentUser (createUserAndRetrieveDataWithEmailAndPassword "app"
          (initialState "en") "a@b.com" "pw"
          (Except.ok { user := { uid := "u1" }, additionalUserInfo := "i" })).1
        = some result.user ∧
      (createUserAndRetrieveDataWithEmailAndPassword "app" (initialState "en")
          "a@b.com" "pw"
          (Except.ok { user := { uid := "u1" }, additionalUserInfo := "i" })).2.1
        = [{ topic := getAppEventName "app" "onUserChanged",
             payload := Payload.user (some result.user) }] :=
  ⟨rfl,
   c8_create_user_scenario "app" "a@b.com" "pw" (initialState "en")
     { user := { uid := "u1" }, additionalUserInfo := "i" } rfl⟩

/-- C9. For every registration on a derived topic, the returned
unsubscribe closure is idempotent: calling it a second time changes
nothing further, calling it when the listener is not subscribed on the
topic is a no-op, and a call never touches the multiplicity of any
registration of a different (topic, listener) pair. -/
theorem c9_unsubscribe_idempotent (k : DerivedTopic) (appName : String)
    (r : Registry) (l : Nat) :
    unsubscribeOn k appName (unsubscribeOn k appName r l) l
        = unsubscribeOn k appName r l ∧
    ((∀ sub ∈ r,
        sub.topic ≠ getAppEventName appName (derivedTopicName k) ∨ sub.listener ≠ l) →
      unsubscribeOn k appName r l = r) ∧
    (∀ sub : Subscription,
      sub.topic ≠ getAppEventName appName (derivedTopicName k) ∨ sub.listener ≠ l →
      List.count sub (unsubscribeOn k appName r l) = List.count sub r) := by
  cases k <;>
    exact ⟨removeListener_idem r _ l,
           fun h => removeListener_noop r _ l h,
           fun sub h => removeListener_count r _ l sub h⟩

/-- C9 witness: with a listener subscribed twice on one topic and another
listener beside it, the second unsubscribe call is a no-op and the other
registration's multiplicity is untouched. -/
theorem c9_unsubscribe_idempotent_witness :
    (unsubscribeOn DerivedTopic.authState "app"
        (unsubscribeOn DerivedTopic.authState "app"
          [{ topic := getAppEventName "app" "onAuthStateChanged", listener := 1 },
           { topic := getAppEventName "app" "onAuthStateChanged", listener := 1 },
           { topic := getAppEventName "app" "onAuthStateChanged", listener := 2 }] 1) 1
      = unsubscribeOn DerivedTopic.authState "app"
          [{ topic := getAppEventName "app" "onAuthStateChanged", listener := 1 },
           { topic := getAppEventName "app" "onAuthStateChanged", listener := 1 },
           { topic := getAppEventName "app" "onAuthStateChanged", listener := 2 }] 1) ∧
    (({ topic := getAppEventName "app" "onAuthStateChanged", listener := 2 } :
        Subscription).topic ≠ getAppEventName "app" (derivedTopicName DerivedTopic.authState) ∨
      ({ topic := getAppEventName "app" "onAuthStateChanged", listener := 2 } :
        Subscription).listener ≠ 1) ∧
    List.count
        ({ topic := getAppEventName "app" "onAuthStateChanged", listener := 2 } :
          Subscription)
        (unsubscribeOn DerivedTopic.authState "app"
          [{ topic := getAppEventName "app" "onAuthStateChanged", listener := 1 },
           { topic := getAppEventName "app" "onAuthStateChanged", listener := 1 },
           { topic := getAppEventName "app" "onAuthStateChanged", listener := 2 }] 1)
      = List.count
          ({ topic := getAppEventName "app" "onAuthStateChanged", listener := 2 } :
            Subscription)
          [{ topic := getAppEventName "app" "onAuthStateChanged", listener := 1 },
           { topic := getAppEventName "app" "onAuthStateChanged", listener := 1 },
           { topic := getAppEventName "app" "onAuthStateChanged", listener := 2 }] :=
  ⟨(c9_unsubscribe_idempotent DerivedTopic.authState "app"
      [{ topic := getAppEventName "app" "onAuthStateChanged", listener := 1 },
       { topic := getAppEventName "app" "onAuthStateChanged", listener := 1 },
       { topic := getAppEventName "app" "onAuthStateChanged", listener := 2 }] 1).1,
   Or.inr (by decide),
   (c9_unsubscribe_idempotent DerivedTopic.authState "app"
      [{ topic := getAppEventName "app" "onAuthStateChanged", listener := 1 },
       { topic := getAppEventName "app" "onAuthStateChanged", listener := 1 },
       { topic := getAppEventName "app" "onAuthStateChanged", listener := 2 }] 1).2.2
     { topic := getAppEventName "app" "onAuthStateChanged", listener := 2 }
     (Or.inr (by decide))⟩

/-- C10. Delivery of any `phone_auth_state_changed` event, for any request
key and any of the four phase types, leaves the whole module state — in
particular the current-user snapshot and the authoritative-result flag —
unchanged, and every topic it publishes on differs from every derived
`onAuthStateChanged` / `onIdTokenChanged` / `onUserChanged` topic of every
application identity. -/
theorem c10_phone_event_frame (appName requestKey t state : String)
    (s : AuthState) (ht : t ∈ phoneAuthPhases) :
    (handleNativeEvent appName s
        (NativeEvent.phone_auth_state_changed requestKey t state)).1 = s ∧
    ∀ em ∈ (handleNativeEvent appName s
        (NativeEvent.phone_auth_state_changed requestKey t state)).2,
      ∀ (appName2 : String) (k : DerivedTopic),
        em.topic ≠ getAppEventName appName2 (derivedTopicName k) := by
  refine ⟨rfl, ?_⟩
  intro em hem appName2 k
  have hem2 : em = { topic := phoneEventTopic requestKey t,
                     payload := Payload.phoneState state } := by
    simpa [handleNativeEvent, phoneEventTopic] using hem
  subst hem2
  show phoneEventTopic requestKey t ≠ getAppEventName appName2 (derivedTopicName k)
  have hshape : phoneEventTopic requestKey t
      = ("phone:auth:" ++ requestKey ++ ":") ++ t := by
    simp [phoneEventTopic, String.append_assoc]
  have hshape2 : getAppEventName appName2 (derivedTopicName k)
      = (appName2 ++ "-") ++ derivedTopicName k := by
    simp [getAppEventName, String.append_assoc]
  rw [hshape, hshape2]
  fin_cases ht <;> cases k <;>
    exact string_append_ne_of_suffix _ _ (by decide) (by decide) _ _

/-- C10 witness: a concrete phase event leaves the state alone and lands
on no derived public topic. -/
theorem c10_phone_event_frame_witness :
    "sent" ∈ phoneAuthPhases ∧
    ((handleNativeEvent "app" (initialState "en")
        (NativeEvent.phone_auth_state_changed "rk1" "sent" "s0")).1
        = initialState "en" ∧
      ∀ em ∈ (handleNativeEvent "app" (initialState "en")
          (NativeEvent.phone_auth_state_changed "rk1" "sent" "s0")).2,
        ∀ (appName2 : String) (k : DerivedTopic),
          em.topic ≠ getAppEventName appName2 (derivedTopicName k)) :=
  ⟨by decide,
   c10_phone_event_frame "app" "rk1" "sent" "s0" (initialState "en") (by decide)⟩

end RNFAuth
